import Mathlib

/-!
# webgpu-triangle: frame renderer, input toggle and device acquisition

A shallow embedding of `src/main.cpp`.

* `float` values are modelled as exact elements of a linearly ordered field `α`
  (the theorems about the rotation angle instantiate `α` with the real numbers).
* The three `<cmath>` facilities the program uses (`M_PI`, `std::cos`, `std::sin`)
  live outside the repository; they are passed in as a `Libm α` record.  The
  theorems about the angle take `M_PI = π`, `cos = Real.cos`, `sin = Real.sin`.
* The GPU is modelled by what the program can observe of it: the content of the
  uniform buffer and the list of command buffers handed to `Queue::Submit`.
-/

namespace WebGPUTriangle

set_option linter.unusedSectionVars false

/-! ## External constants -/

/-- From `GLFW/glfw3.h`: `#define GLFW_MOUSE_BUTTON_LEFT GLFW_MOUSE_BUTTON_1` (value 0). -/
def GLFW_MOUSE_BUTTON_LEFT : Int := 0

/-- From `GLFW/glfw3.h`: `#define GLFW_PRESS 1`. -/
def GLFW_PRESS : Int := 1

/-- The `<cmath>` facilities used by `main.cpp`. -/
structure Libm (α : Type) where
  M_PI : α
  cos : α → α
  sin : α → α

/-! ## GPU command model -/

/-- The long-lived GPU objects held in the program's global variables. -/
inductive Handle
  | pipeline
  | vertexBuffer
  | uniformBuffer
  | bindGroup
  deriving DecidableEq, Repr

/-- Commands a `wgpu::RenderPassEncoder` can record (the part of the API that
binds state or draws). -/
inductive PassCommand
  | SetPipeline (renderPipeline : Handle)
  | SetBindGroup (groupIndex : Nat) (group : Handle)
  | SetVertexBuffer (slot : Nat) (buffer : Handle)
  | SetIndexBuffer (buffer : Handle)
  | Draw (vertexCount instanceCount firstVertex firstInstance : Nat)
  | DrawIndexed (indexCount instanceCount firstIndex baseVertex firstInstance : Nat)
  deriving DecidableEq, Repr

/-- Whether a pass command is a draw call (indexed or not). -/
def PassCommand.isDraw : PassCommand → Bool
  | .Draw _ _ _ _ => true
  | .DrawIndexed _ _ _ _ _ => true
  | _ => false

inductive LoadOp
  | Clear
  | Load
  deriving DecidableEq, Repr

inductive StoreOp
  | Store
  | Discard
  deriving DecidableEq, Repr

/-- The fields of `wgpu::RenderPassColorAttachment` that `Render` sets (the view is
the current surface texture). -/
structure RenderPassColorAttachment (α : Type) where
  loadOp : LoadOp
  storeOp : StoreOp
  clearValue : α × α × α × α
  deriving DecidableEq, Repr

/-- A recorded render pass: its descriptor and the commands between
`BeginRenderPass` and `End`. -/
structure RenderPass (α : Type) where
  colorAttachments : List (RenderPassColorAttachment α)
  commands : List PassCommand
  deriving DecidableEq, Repr

/-- What `CommandEncoder::Finish` returns: the passes recorded on the encoder. -/
structure CommandBuffer (α : Type) where
  passes : List (RenderPass α)
  deriving DecidableEq, Repr

/-! ## Program state -/

/-- The globals `rotationAngle` and `isAnimating`, the content of the GPU buffer
behind `uniformBuffer`, and every command buffer passed to `Queue::Submit` so far
(oldest first). -/
structure State (α : Type) where
  rotationAngle : α
  isAnimating : Bool
  uniformBuffer : List α
  submitted : List (CommandBuffer α)
  deriving DecidableEq, Repr

variable {α : Type} [LinearOrderedField α]

/-- The constant `transformationMatrix[16]` (lines 67-72): the 4x4 identity. -/
def transformationMatrix : List α :=
  [1, 0, 0, 0,
   0, 1, 0, 0,
   0, 0, 1, 0,
   0, 0, 0, 1]

/-- `Queue::WriteBuffer(buffer, offset, data, size)` with `size = sizeof(data)`:
overwrites the buffer from `offset` (counted in floats) with `data`. -/
def WriteBuffer (buffer : List α) (offset : Nat) (data : List α) : List α :=
  buffer.take offset ++ data ++ buffer.drop (offset + data.length)

/-- `Queue::Submit(count, commands)`: appends the command buffers to the queue. -/
def Submit (s : State α) (commands : List (CommandBuffer α)) : State α :=
  { s with submitted := s.submitted ++ commands }

/-- The globals as initialised at lines 23-24, before any GPU object exists. -/
def globals : State α :=
  { rotationAngle := 0.0, isAnimating := true, uniformBuffer := [], submitted := [] }

/-- `CreateUniformBuffer` (lines 173-182): a fresh zero-filled buffer of
`sizeof(transformationMatrix)` = 16 floats, then the identity written at offset 0. -/
def CreateUniformBuffer (s : State α) : State α :=
  let uniformBuffer : List α := List.replicate (transformationMatrix : List α).length 0
  { s with uniformBuffer := WriteBuffer uniformBuffer 0 transformationMatrix }

/-- The state in which the render loop starts: the initial globals after
`InitGraphics` has created the uniform buffer. -/
def programStart : State α := CreateUniformBuffer globals

/-- `UpdateTransformationMatrix` (lines 76-93). -/
def UpdateTransformationMatrix (m : Libm α) (s : State α) : State α :=
  let cosTheta := m.cos s.rotationAngle
  let sinTheta := m.sin s.rotationAngle
  let rotationMatrix : List α :=
    [cosTheta, -sinTheta, 0.0, 0.0,
     sinTheta,  cosTheta, 0.0, 0.0,
          0.0,       0.0, 1.0, 0.0,
          0.0,       0.0, 0.0, 1.0]
  { s with uniformBuffer := WriteBuffer s.uniformBuffer 0 rotationMatrix }

/-- `MouseButtonCallback` (lines 95-101); the window argument is unused. -/
def MouseButtonCallback (button action _mods : Int) (s : State α) : State α :=
  if button = GLFW_MOUSE_BUTTON_LEFT ∧ action = GLFW_PRESS then
    { s with isAnimating := !s.isAnimating }
  else
    s

/-- `Render` (lines 264-298): the animation update (lines 267-277), then one
encoder recording one render pass, `Finish`, and `Submit(1, &commands)`. -/
def Render (m : Libm α) (s : State α) : State α :=
  let s :=
    if s.isAnimating then
      let s1 := { s with rotationAngle := s.rotationAngle + 0.01 }
      let s2 :=
        if s1.rotationAngle > 2.0 * m.M_PI then
          { s1 with rotationAngle := s1.rotationAngle - 2.0 * m.M_PI }
        else
          s1
      UpdateTransformationMatrix m s2
    else
      s
  let attachment : RenderPassColorAttachment α :=
    { loadOp := LoadOp.Clear, storeOp := StoreOp.Store, clearValue := (0.0, 0.2, 0.4, 1.0) }
  let pass : List PassCommand :=
    [PassCommand.SetPipeline Handle.pipeline,
     PassCommand.SetBindGroup 0 Handle.bindGroup,
     PassCommand.SetVertexBuffer 0 Handle.vertexBuffer,
     PassCommand.Draw 3 1 0 0]
  let commands : CommandBuffer α :=
    { passes := [{ colorAttachments := [attachment], commands := pass }] }
  Submit s [commands]

/-- The condition under which the wrap branch at lines 270-273 is taken by the
frame rendered from state `s`. -/
def wrapFires (m : Libm α) (s : State α) : Prop :=
  s.isAnimating = true ∧ s.rotationAngle + 0.01 > 2.0 * m.M_PI

instance (m : Libm α) (s : State α) : Decidable (wrapFires m s) := by
  unfold wrapFires
  infer_instance

/-- What the main loop feeds the state: a rendered frame, or a mouse-button event
delivered by `glfwPollEvents`. -/
inductive Event
  | Render
  | MouseButton (button action mods : Int)
  deriving DecidableEq, Repr

/-- Whether an event is a press of the left mouse button. -/
def Event.isLeftPress : Event → Bool
  | .MouseButton button action _ => button = GLFW_MOUSE_BUTTON_LEFT ∧ action = GLFW_PRESS
  | .Render => false

def step (m : Libm α) (s : State α) : Event → State α
  | .Render => Render m s
  | .MouseButton button action mods => MouseButtonCallback button action mods s

/-- The state after a sequence of events, first event first. -/
def run (m : Libm α) (evs : List Event) (s : State α) : State α :=
  evs.foldl (step m) s

/-- The state after `n` consecutive frames with no input event in between. -/
def frames (m : Libm α) : Nat → State α → State α
  | 0, s => s
  | n + 1, s => Render m (frames m n s)

/-- How many of the `Render` events in `evs` run their animation branch (lines 267-277),
for a program whose `isAnimating` flag is `isAnimating` before the first event: the
flag is followed through the left-button presses exactly as `MouseButtonCallback`
flips it. -/
def animatedRenders : List Event → Bool → Nat
  | [], _ => 0
  | .Render :: evs, isAnimating =>
    (if isAnimating then 1 else 0) + animatedRenders evs isAnimating
  | .MouseButton button action _ :: evs, isAnimating =>
    animatedRenders evs
      (if button = GLFW_MOUSE_BUTTON_LEFT ∧ action = GLFW_PRESS then !isAnimating
       else isAnimating)

/-- A rational stand-in for `<cmath>` on which the model can be evaluated: `M_PI` as
355/113 and the second-order Taylor polynomials of `cos` and `sin`. -/
def sampleLibm : Libm ℚ :=
  { M_PI := 355 / 113, cos := fun x => 1 - x * x / 2, sin := fun x => x }

/-! ## Device acquisition (lines 113-154, 300-356)

The process is modelled by the calls it makes, in order, together with the globals
`adapter` and `device` and the exit code once `exit` has been called.  The GPU
runtime and GLFW are an environment that answers the two asynchronous requests and
`glfwInit`. -/

/-- From `webgpu/webgpu.h`. -/
inductive WGPURequestAdapterStatus
  | Success
  | Unavailable
  | Error
  | Unknown
  deriving DecidableEq, Repr

/-- From `webgpu/webgpu.h`. -/
inductive WGPURequestDeviceStatus
  | Success
  | Error
  | Unknown
  deriving DecidableEq, Repr

/-- A `wgpu::Adapter`: the wrapper around a raw `WGPUAdapter` (0 is the null handle). -/
structure Adapter where
  handle : Nat
  deriving DecidableEq, Repr

/-- A `wgpu::Device`: the wrapper around a raw `WGPUDevice` (0 is the null handle). -/
structure Device where
  handle : Nat
  deriving DecidableEq, Repr

/-- `wgpu::Adapter::Acquire`. -/
def Adapter.Acquire (cAdapter : Nat) : Adapter := { handle := cAdapter }

/-- `wgpu::Device::Acquire`. -/
def Device.Acquire (cDevice : Nat) : Device := { handle := cDevice }

/-- The calls the process makes that matter for start-up. -/
inductive Call
  | CreateInstance
  | RequestAdapter
  | RequestDevice
  | printf (text : String)
  | SetUncapturedErrorCallback (device : Device)
  | Start
  | glfwInit
  | glfwCreateWindow
  | glfwSetMouseButtonCallback
  | CreateSurface
  | ConfigureSurface
  | CreateVertexBuffer
  | CreateUniformBuffer
  | CreateRenderPipeline
  | renderLoop
  deriving DecidableEq, Repr

/-- Whether a call creates a GPU resource (surface, buffers, pipeline objects). -/
def Call.createsGpuResource : Call → Bool
  | .CreateSurface => true
  | .ConfigureSurface => true
  | .CreateVertexBuffer => true
  | .CreateUniformBuffer => true
  | .CreateRenderPipeline => true
  | _ => false

structure Process where
  adapter : Option Adapter
  device : Option Device
  trace : List Call
  exitCode : Option Int
  deriving DecidableEq, Repr

/-- How the environment answers: the arguments with which the runtime invokes the
adapter and device callbacks, and the result of `glfwInit`. -/
structure Runtime where
  adapterStatus : WGPURequestAdapterStatus
  cAdapter : Nat
  adapterMessage : Option String
  deviceStatus : WGPURequestDeviceStatus
  cDevice : Nat
  deviceMessage : Option String
  glfwInitOk : Bool

def call (c : Call) (p : Process) : Process :=
  { p with trace := p.trace ++ [c] }

/-- The libc `exit(code)`: the process ends here; nothing after it runs. -/
def exit (code : Int) (p : Process) : Process :=
  { p with exitCode := some code }

/-- The common opening of both callbacks: `if (message) printf(...)`. -/
def printMessage (label : String) (message : Option String) (p : Process) : Process :=
  match message with
  | some text => call (Call.printf (label ++ text ++ "\n")) p
  | none => p

/-- The lambda passed to `instance.RequestAdapter` (lines 119-130); `userdata` is the
continuation `callback` of `GetAdapter`. -/
def adapterCallback (status : WGPURequestAdapterStatus) (cAdapter : Nat)
    (message : Option String) (userdata : Adapter → Process → Process) (p : Process) :
    Process :=
  let p := printMessage "RequestAdapter: " message p
  if status ≠ WGPURequestAdapterStatus.Success then
    exit 0 p
  else
    let adapter := Adapter.Acquire cAdapter
    userdata adapter p

/-- `GetAdapter` (lines 113-132): the runtime answers the request by invoking the
lambda once. -/
def GetAdapter (rt : Runtime) (callback : Adapter → Process → Process) (p : Process) :
    Process :=
  let p := call Call.RequestAdapter p
  adapterCallback rt.adapterStatus rt.cAdapter rt.adapterMessage callback p

/-- The lambda passed to `adapter.RequestDevice` (lines 140-152). -/
def deviceCallback (_status : WGPURequestDeviceStatus) (cDevice : Nat)
    (message : Option String) (userdata : Device → Process → Process) (p : Process) :
    Process :=
  let p := printMessage "RequestDevice: " message p
  let device := Device.Acquire cDevice
  let p := call (Call.SetUncapturedErrorCallback device) p
  userdata device p

/-- `GetDevice` (lines 134-154). -/
def GetDevice (rt : Runtime) (callback : Device → Process → Process) (p : Process) :
    Process :=
  let p := call Call.RequestDevice p
  deviceCallback rt.deviceStatus rt.cDevice rt.deviceMessage callback p

/-- `InitGraphics` (lines 300-306). -/
def InitGraphics (p : Process) : Process :=
  let p := call Call.ConfigureSurface p
  let p := call Call.CreateVertexBuffer p
  let p := call Call.CreateUniformBuffer p
  call Call.CreateRenderPipeline p

/-- `Start` (lines 308-344).  The loop itself is the frame model above (`run`);
here it is one entry of the trace. -/
def Start (rt : Runtime) (p : Process) : Process :=
  let p := call Call.Start p
  let p := call Call.glfwInit p
  if !rt.glfwInitOk then
    p
  else
    let p := call Call.glfwCreateWindow p
    let p := call Call.glfwSetMouseButtonCallback p
    let p := call Call.CreateSurface p
    let p := InitGraphics p
    call Call.renderLoop p

/-- `main` (lines 346-356). -/
def main (rt : Runtime) : Process :=
  let p : Process := { adapter := none, device := none, trace := [], exitCode := none }
  let p := call Call.CreateInstance p
  GetAdapter rt
    (fun a p =>
      let p := { p with adapter := some a }
      GetDevice rt
        (fun d p =>
          let p := { p with device := some d }
          Start rt p)
        p)
    p

/-! ## Invariants of the real-valued model -/

/-- The angle invariant of the animation: a multiple of the step minus whole turns,
inside the half-open turn. -/
def AngleInv (s : State ℝ) : Prop :=
  (∃ n k : ℕ, s.rotationAngle = (n : ℝ) / 100 - 2 * Real.pi * k) ∧
    0 ≤ s.rotationAngle ∧ s.rotationAngle < 2 * Real.pi

/-- The buffer invariant: the uniform buffer holds the Z-axis rotation matrix of the
current angle, and the angle invariant holds. -/
def BufferInv (s : State ℝ) : Prop :=
  AngleInv s ∧
    s.uniformBuffer =
      [Real.cos s.rotationAngle, -Real.sin s.rotationAngle, 0, 0,
       Real.sin s.rotationAngle, Real.cos s.rotationAngle, 0, 0,
       0, 0, 1, 0,
       0, 0, 0, 1]

/-! ## Basic facts about one frame -/

theorem Render_isAnimating (m : Libm α) (s : State α) :
    (Render m s).isAnimating = s.isAnimating := by
  unfold Render UpdateTransformationMatrix Submit
  by_cases h : s.isAnimating = true
  · simp only [h, if_true]
    split <;> rfl
  · simp [h]

theorem Render_rotationAngle (m : Libm α) (s : State α) :
    (Render m s).rotationAngle =
      if s.isAnimating = true then
        (if s.rotationAngle + 0.01 > 2.0 * m.M_PI then s.rotationAngle + 0.01 - 2.0 * m.M_PI
         else s.rotationAngle + 0.01)
      else s.rotationAngle := by
  unfold Render UpdateTransformationMatrix Submit
  by_cases h : s.isAnimating = true
  · simp only [h, if_true]
    split <;> rfl
  · simp [h]

theorem Render_idle (m : Libm α) (s : State α) (h : s.isAnimating = false) :
    Render m s = { s with submitted := (Render m s).submitted } := by
  unfold Render Submit
  simp [h]

theorem WriteBuffer_full {β : Type} (buffer data : List β) (h : buffer.length ≤ data.length) :
    WriteBuffer buffer 0 data = data := by
  unfold WriteBuffer
  simp [List.drop_eq_nil_of_le h]

theorem Render_uniformBuffer (m : Libm α) (s : State α) (h : s.isAnimating = true)
    (hlen : s.uniformBuffer.length ≤ 16) :
    (Render m s).uniformBuffer =
      [m.cos (Render m s).rotationAngle, -m.sin (Render m s).rotationAngle, 0, 0,
       m.sin (Render m s).rotationAngle, m.cos (Render m s).rotationAngle, 0, 0,
       0, 0, 1, 0,
       0, 0, 0, 1] := by
  rw [Render_rotationAngle]
  unfold Render UpdateTransformationMatrix Submit
  simp only [h, if_true]
  split <;> (simp only []; rw [WriteBuffer_full _ _ (by simpa using hlen)]; norm_num)

theorem frames_isAnimating (m : Libm α) (n : Nat) (s : State α) :
    (frames m n s).isAnimating = s.isAnimating := by
  induction n with
  | zero => rfl
  | succ n ih => rw [frames, Render_isAnimating, ih]

/-- An invariant kept by every event holds after any sequence of events. -/
theorem run_invariant (m : Libm α) (P : State α → Prop)
    (hstep : ∀ s e, P s → P (step m s e)) (evs : List Event) (s : State α) (hs : P s) :
    P (run m evs s) := by
  induction evs generalizing s with
  | nil => exact hs
  | cons e evs ih => exact ih (step m s e) (hstep s e hs)

theorem MouseButtonCallback_rotationAngle (button action mods : Int) (s : State α) :
    (MouseButtonCallback button action mods s).rotationAngle = s.rotationAngle := by
  unfold MouseButtonCallback
  split <;> rfl

theorem MouseButtonCallback_uniformBuffer (button action mods : Int) (s : State α) :
    (MouseButtonCallback button action mods s).uniformBuffer = s.uniformBuffer := by
  unfold MouseButtonCallback
  split <;> rfl

theorem programStart_rotationAngle : (programStart : State α).rotationAngle = 0 := by
  norm_num [programStart, CreateUniformBuffer, globals]

theorem programStart_isAnimating : (programStart : State α).isAnimating = true := rfl

theorem programStart_uniformBuffer :
    (programStart : State α).uniformBuffer = transformationMatrix := by
  simp [programStart, CreateUniformBuffer, globals, WriteBuffer, transformationMatrix]

/-! ## The rotation angle over the reals -/

/-- No multiple of the step 0.01, reduced by whole turns, is exactly one turn:
that would make pi rational. -/
theorem step_multiple_ne_turn (n k : ℕ) :
    (n : ℝ) / 100 - 2 * Real.pi * k ≠ 2 * Real.pi := by
  intro h
  apply irrational_pi
  refine ⟨(n : ℚ) / (200 * (k + 1)), ?_⟩
  have hk : (200 * ((k : ℝ) + 1)) ≠ 0 := by positivity
  push_cast
  rw [div_eq_iff hk]
  linarith

theorem AngleInv_Render (s : State ℝ) (h : AngleInv s) :
    AngleInv (Render (Libm.mk Real.pi Real.cos Real.sin) s) := by
  obtain ⟨⟨n, k, hnk⟩, h0, h1⟩ := h
  have hpi := Real.pi_gt_three
  unfold AngleInv
  rw [Render_rotationAngle]
  by_cases ha : s.isAnimating = true
  · simp only [ha, if_true]
    by_cases hw : s.rotationAngle + 0.01 > 2.0 * Real.pi
    · simp only [hw, if_true]
      norm_num at hw ⊢
      refine ⟨⟨n + 1, k + 1, ?_⟩, by linarith, by linarith⟩
      rw [hnk]; push_cast; ring
    · simp only [hw, if_false]
      norm_num at hw ⊢
      have hne := step_multiple_ne_turn (n + 1) k
      have heq : s.rotationAngle + 1 / 100 = ((n + 1 : ℕ) : ℝ) / 100 - 2 * Real.pi * k := by
        rw [hnk]; push_cast; ring
      refine ⟨⟨n + 1, k, heq⟩, by linarith, ?_⟩
      rcases lt_or_eq_of_le hw with hlt | heq2
      · exact hlt
      · exact absurd (heq ▸ heq2) hne
  · simp only [ha]
    exact ⟨⟨n, k, hnk⟩, h0, h1⟩

theorem AngleInv_step (s : State ℝ) (e : Event) (h : AngleInv s) :
    AngleInv (step (Libm.mk Real.pi Real.cos Real.sin) s e) := by
  cases e with
  | Render => exact AngleInv_Render s h
  | MouseButton button action mods =>
    unfold AngleInv at h ⊢
    simp only [step, MouseButtonCallback_rotationAngle]
    exact h

theorem AngleInv_programStart : AngleInv programStart := by
  unfold AngleInv
  rw [programStart_rotationAngle]
  exact ⟨⟨0, 0, by simp⟩, le_refl _, by positivity⟩

/-- Before the first wrap the angle is the plain sum of the steps. -/
theorem frames_rotationAngle_prewrap (j : ℕ) (hj : j ≤ 628) :
    (frames (Libm.mk Real.pi Real.cos Real.sin) j programStart).rotationAngle
      = (j : ℝ) / 100 := by
  induction j with
  | zero => simp [frames, programStart_rotationAngle]
  | succ j ih =>
    have hprev := ih (Nat.le_of_succ_le hj)
    have hpi := Real.pi_gt_d2
    have hjr : (j : ℝ) + 1 ≤ 628 := by exact_mod_cast hj
    rw [frames, Render_rotationAngle, frames_isAnimating, programStart_isAnimating, hprev]
    have hno : ¬ ((j : ℝ) / 100 + 0.01 > 2.0 * Real.pi) := by
      norm_num at hpi ⊢
      linarith
    simp only [if_true, hno, if_false]
    push_cast
    norm_num
    ring

/-- C2: in every state reachable from the initial state by Render calls and
mouse-button events, 0 <= rotationAngle < 2*pi. -/
theorem C2_angle_in_half_open_turn (evs : List Event) :
    0 ≤ (run (Libm.mk Real.pi Real.cos Real.sin) evs programStart).rotationAngle ∧
      (run (Libm.mk Real.pi Real.cos Real.sin) evs programStart).rotationAngle
        < 2 * Real.pi :=
  (run_invariant _ AngleInv AngleInv_step evs programStart AngleInv_programStart).2

/-- C8: from the initial state the wrap branch is not taken by any of the first 628
frames, it is taken by the 629th, and the angle after 629 frames is 6.29 - 2*pi,
which lies in [0, 0.01). -/
theorem C8_wraps_once_at_frame_629 :
    (∀ j : ℕ, j < 628 →
        ¬ wrapFires (Libm.mk Real.pi Real.cos Real.sin)
            (frames (Libm.mk Real.pi Real.cos Real.sin) j programStart)) ∧
      wrapFires (Libm.mk Real.pi Real.cos Real.sin)
        (frames (Libm.mk Real.pi Real.cos Real.sin) 628 programStart) ∧
      (frames (Libm.mk Real.pi Real.cos Real.sin) 629 programStart).rotationAngle
        = 6.29 - 2 * Real.pi ∧
      (0 : ℝ) ≤ 6.29 - 2 * Real.pi ∧ 6.29 - 2 * Real.pi < (0.01 : ℝ) := by
  have hlo := Real.pi_gt_d2
  have hhi := Real.pi_lt_d4
  norm_num at hlo hhi
  have h628 := frames_rotationAngle_prewrap 628 (le_refl _)
  have hfire : wrapFires (Libm.mk Real.pi Real.cos Real.sin)
      (frames (Libm.mk Real.pi Real.cos Real.sin) 628 programStart) := by
    refine ⟨by rw [frames_isAnimating, programStart_isAnimating], ?_⟩
    rw [h628]
    norm_num
    linarith
  refine ⟨?_, hfire, ?_, by norm_num; linarith, by norm_num; linarith⟩
  · intro j hj hw
    have hang := frames_rotationAngle_prewrap j (Nat.le_of_lt hj)
    have hjr : (j : ℝ) + 1 ≤ 628 := by exact_mod_cast hj
    have h2 := hw.2
    rw [hang] at h2
    norm_num at h2
    linarith
  · have h2 := hfire.2
    rw [frames, Render_rotationAngle, frames_isAnimating, programStart_isAnimating]
    simp only [if_true, h2]
    rw [h628]
    norm_num

/-! ## The uniform buffer -/

theorem BufferInv_programStart : BufferInv programStart := by
  refine ⟨AngleInv_programStart, ?_⟩
  rw [programStart_uniformBuffer, programStart_rotationAngle]
  simp [transformationMatrix]

theorem BufferInv_step (s : State ℝ) (e : Event) (h : BufferInv s) :
    BufferInv (step (Libm.mk Real.pi Real.cos Real.sin) s e) := by
  refine ⟨AngleInv_step s e h.1, ?_⟩
  cases e with
  | Render =>
    by_cases ha : s.isAnimating = true
    · have hlen : s.uniformBuffer.length ≤ 16 := by rw [h.2]; simp
      exact Render_uniformBuffer _ s ha hlen
    · have hidle : s.isAnimating = false := by simpa using ha
      simp only [step]
      rw [Render_idle _ s hidle]
      exact h.2
  | MouseButton button action mods =>
    simp only [step, MouseButtonCallback_rotationAngle, MouseButtonCallback_uniformBuffer]
    exact h.2

theorem MouseButtonCallback_isAnimating (button action mods : Int) (s : State α) :
    (MouseButtonCallback button action mods s).isAnimating =
      (if button = GLFW_MOUSE_BUTTON_LEFT ∧ action = GLFW_PRESS then !s.isAnimating
       else s.isAnimating) := by
  unfold MouseButtonCallback
  split <;> rfl

/-- The angle after any events is the step times the number of animated frames so
far, minus whole turns. -/
theorem run_angle_counts_animated (evs : List Event) (s : State ℝ) (n : ℕ)
    (h : ∃ k : ℕ, s.rotationAngle = (n : ℝ) / 100 - 2 * Real.pi * k) :
    ∃ k : ℕ, (run (Libm.mk Real.pi Real.cos Real.sin) evs s).rotationAngle
      = ((n + animatedRenders evs s.isAnimating : ℕ) : ℝ) / 100 - 2 * Real.pi * k := by
  induction evs generalizing s n with
  | nil => simpa [run, animatedRenders] using h
  | cons e evs ih =>
    obtain ⟨k, hk⟩ := h
    cases e with
    | Render =>
      by_cases ha : s.isAnimating = true
      · have hstep : ∃ k1 : ℕ, (Render (Libm.mk Real.pi Real.cos Real.sin) s).rotationAngle
            = ((n + 1 : ℕ) : ℝ) / 100 - 2 * Real.pi * k1 := by
          rw [Render_rotationAngle, hk]
          simp only [ha, if_true]
          split
          · exact ⟨k + 1, by push_cast; norm_num; ring⟩
          · exact ⟨k, by push_cast; norm_num; ring⟩
        have := ih (Render (Libm.mk Real.pi Real.cos Real.sin) s) (n + 1) hstep
        rw [Render_isAnimating, ha] at this
        simpa [run, step, animatedRenders, ha, Nat.add_assoc, Nat.add_comm 1] using this
      · have hidle : s.isAnimating = false := by simpa using ha
        have hstep : ∃ k1 : ℕ, (Render (Libm.mk Real.pi Real.cos Real.sin) s).rotationAngle
            = ((n : ℕ) : ℝ) / 100 - 2 * Real.pi * k1 := by
          rw [Render_rotationAngle]
          simp only [ha]
          exact ⟨k, hk⟩
        have := ih (Render (Libm.mk Real.pi Real.cos Real.sin) s) n hstep
        rw [Render_isAnimating, hidle] at this
        simpa [run, step, animatedRenders, hidle] using this
    | MouseButton button action mods =>
      have hstep : ∃ k1 : ℕ, (MouseButtonCallback button action mods s).rotationAngle
          = ((n : ℕ) : ℝ) / 100 - 2 * Real.pi * k1 :=
        ⟨k, by rw [MouseButtonCallback_rotationAngle, hk]⟩
      have := ih (MouseButtonCallback button action mods s) n hstep
      rw [MouseButtonCallback_isAnimating] at this
      simpa [run, step, animatedRenders] using this

/-- C3 as stated fails: after one animated frame and a left click the program is
idle, yet the uniform buffer holds the rotation by 0.01 and not the identity. -/
theorem C3_idle_buffer_not_identity :
    (run (Libm.mk Real.pi Real.cos Real.sin)
        [Event.Render, Event.MouseButton GLFW_MOUSE_BUTTON_LEFT GLFW_PRESS 0]
        programStart).isAnimating = false ∧
      (run (Libm.mk Real.pi Real.cos Real.sin)
        [Event.Render, Event.MouseButton GLFW_MOUSE_BUTTON_LEFT GLFW_PRESS 0]
        programStart).uniformBuffer ≠ transformationMatrix := by
  have hpi := Real.pi_gt_three
  have hang : (Render (Libm.mk Real.pi Real.cos Real.sin) programStart).rotationAngle
      = 1 / 100 := by
    have h := frames_rotationAngle_prewrap 1 (by norm_num)
    simpa [frames] using h
  have hbuf := Render_uniformBuffer (Libm.mk Real.pi Real.cos Real.sin) programStart
    programStart_isAnimating (by rw [programStart_uniformBuffer]; simp [transformationMatrix])
  have hsin : 0 < Real.sin (1 / 100) :=
    Real.sin_pos_of_pos_of_lt_pi (by norm_num) (by linarith)
  constructor
  · simp [run, step, MouseButtonCallback, Render_isAnimating, programStart_isAnimating]
  · simp only [run, List.foldl, step, MouseButtonCallback_uniformBuffer]
    rw [hbuf, hang]
    intro h
    simp [transformationMatrix] at h
    linarith [h.2.1]

/-- C3 amended: in every reachable state, animating or not, the uniform buffer holds
the Z-axis rotation matrix of the current rotationAngle; it is the identity exactly
when rotationAngle = 0, which is the case exactly when no Render call has yet been
made with isAnimating true; and a Render call made while isAnimating is false leaves
the buffer unchanged. -/
theorem C3_buffer_tracks_angle (evs : List Event) :
    (run (Libm.mk Real.pi Real.cos Real.sin) evs programStart).uniformBuffer =
        [Real.cos (run (Libm.mk Real.pi Real.cos Real.sin) evs programStart).rotationAngle,
         -Real.sin (run (Libm.mk Real.pi Real.cos Real.sin) evs programStart).rotationAngle,
         0, 0,
         Real.sin (run (Libm.mk Real.pi Real.cos Real.sin) evs programStart).rotationAngle,
         Real.cos (run (Libm.mk Real.pi Real.cos Real.sin) evs programStart).rotationAngle,
         0, 0,
         0, 0, 1, 0,
         0, 0, 0, 1] ∧
      ((run (Libm.mk Real.pi Real.cos Real.sin) evs programStart).uniformBuffer
          = transformationMatrix ↔
        (run (Libm.mk Real.pi Real.cos Real.sin) evs programStart).rotationAngle = 0) ∧
      ((run (Libm.mk Real.pi Real.cos Real.sin) evs programStart).rotationAngle = 0 ↔
        animatedRenders evs true = 0) ∧
      ((run (Libm.mk Real.pi Real.cos Real.sin) evs programStart).isAnimating = false →
        (Render (Libm.mk Real.pi Real.cos Real.sin)
            (run (Libm.mk Real.pi Real.cos Real.sin) evs programStart)).uniformBuffer
          = (run (Libm.mk Real.pi Real.cos Real.sin) evs programStart).uniformBuffer) := by
  have hinv := run_invariant _ BufferInv BufferInv_step evs programStart BufferInv_programStart
  obtain ⟨⟨_, h0, h1⟩, hbuf⟩ := hinv
  refine ⟨hbuf, ?_, ?_, ?_⟩
  · rw [hbuf]
    constructor
    · intro h
      simp [transformationMatrix] at h
      exact (Real.cos_eq_one_iff_of_lt_of_lt (by linarith) h1).1 h.1
    · intro h
      rw [h]
      simp [transformationMatrix]
  · obtain ⟨k, hk⟩ := run_angle_counts_animated evs programStart 0
      ⟨0, by rw [programStart_rotationAngle]; simp⟩
    rw [programStart_isAnimating, Nat.zero_add] at hk
    have hpi := Real.pi_pos
    constructor
    · intro hzero
      by_contra hcount
      rw [hk] at hzero
      cases k with
      | zero =>
        have hpos : (0 : ℝ) < (animatedRenders evs true : ℝ) :=
          Nat.cast_pos.mpr (Nat.pos_of_ne_zero hcount)
        simp at hzero
        exact hcount hzero
      | succ k =>
        apply step_multiple_ne_turn (animatedRenders evs true) k
        push_cast at hzero ⊢
        linarith
    · intro hcount
      rw [hcount] at hk
      rw [hk] at h0 ⊢
      have hk0 : (k : ℝ) ≤ 0 := by
        by_contra hlt
        push_neg at hlt
        have : 0 < 2 * Real.pi * (k : ℝ) := by positivity
        simp at h0
        linarith
      have hk1 : (k : ℝ) = 0 := le_antisymm hk0 (Nat.cast_nonneg k)
      rw [hk1]
      simp
  · intro hidle
    rw [Render_idle _ _ hidle]

/-! ## Input toggle and idle frames -/

theorem frames_idle (m : Libm α) (s : State α) (h : s.isAnimating = false) (n : ℕ) :
    (frames m n s).rotationAngle = s.rotationAngle ∧
      (frames m n s).uniformBuffer = s.uniformBuffer := by
  induction n with
  | zero => exact ⟨rfl, rfl⟩
  | succ n ih =>
    have hidle : (frames m n s).isAnimating = false := by rw [frames_isAnimating, h]
    rw [frames, Render_idle m _ hidle]
    exact ih

/-- C4: a left-button press while animating clears isAnimating, and each of the
frames rendered after it (any number, no further mouse event) leaves rotationAngle
and the uniform buffer as they were before that frame, hence as they were at the
click. -/
theorem C4_click_freezes_animation (m : Libm α) (s : State α) (mods : Int)
    (h : s.isAnimating = true) (n : ℕ) :
    (MouseButtonCallback GLFW_MOUSE_BUTTON_LEFT GLFW_PRESS mods s).isAnimating = false ∧
      (Render m (frames m n
          (MouseButtonCallback GLFW_MOUSE_BUTTON_LEFT GLFW_PRESS mods s))).rotationAngle
        = (frames m n
            (MouseButtonCallback GLFW_MOUSE_BUTTON_LEFT GLFW_PRESS mods s)).rotationAngle ∧
      (Render m (frames m n
          (MouseButtonCallback GLFW_MOUSE_BUTTON_LEFT GLFW_PRESS mods s))).uniformBuffer
        = (frames m n
            (MouseButtonCallback GLFW_MOUSE_BUTTON_LEFT GLFW_PRESS mods s)).uniformBuffer ∧
      (frames m n
          (MouseButtonCallback GLFW_MOUSE_BUTTON_LEFT GLFW_PRESS mods s)).rotationAngle
        = s.rotationAngle ∧
      (frames m n
          (MouseButtonCallback GLFW_MOUSE_BUTTON_LEFT GLFW_PRESS mods s)).uniformBuffer
        = s.uniformBuffer := by
  have hoff : (MouseButtonCallback GLFW_MOUSE_BUTTON_LEFT GLFW_PRESS mods s).isAnimating
      = false := by
    simp [MouseButtonCallback, h]
  have hn := frames_idle m _ hoff n
  have hn1 := frames_idle m _ hoff (n + 1)
  rw [frames] at hn1
  rw [MouseButtonCallback_rotationAngle, MouseButtonCallback_uniformBuffer] at hn hn1
  refine ⟨hoff, ?_, ?_, hn.1, hn.2⟩
  · rw [hn1.1, hn.1]
  · rw [hn1.2, hn.2]

/-- C4 at the program start, with three idle frames after the click. -/
theorem C4_click_freezes_animation_witness :
    (programStart : State ℚ).isAnimating = true ∧
      (MouseButtonCallback GLFW_MOUSE_BUTTON_LEFT GLFW_PRESS 0
          (programStart : State ℚ)).isAnimating = false ∧
      (frames sampleLibm 3
          (MouseButtonCallback GLFW_MOUSE_BUTTON_LEFT GLFW_PRESS 0
            (programStart : State ℚ))).rotationAngle
        = (programStart : State ℚ).rotationAngle :=
  ⟨rfl,
    (C4_click_freezes_animation sampleLibm programStart 0 rfl 3).1,
    (C4_click_freezes_animation sampleLibm programStart 0 rfl 3).2.2.2.1⟩

theorem step_leftPress (m : Libm α) (s : State α) (e : Event) (h : e.isLeftPress = true) :
    step m s e = { s with isAnimating := !s.isAnimating } := by
  cases e with
  | Render => simp [Event.isLeftPress] at h
  | MouseButton button action mods =>
    simp only [Event.isLeftPress, decide_eq_true_eq] at h
    simp [step, MouseButtonCallback, h]

/-- C5: from any state, any 2k left-button presses lead back to that state. -/
theorem C5_even_toggles_restore_state (m : Libm α) (k : ℕ) (evs : List Event) (s : State α)
    (hlen : evs.length = 2 * k) (hall : ∀ e ∈ evs, e.isLeftPress = true) :
    run m evs s = s := by
  induction k generalizing evs s with
  | zero =>
    have hnil : evs = [] := List.length_eq_zero.mp (by simpa using hlen)
    rw [hnil]
    rfl
  | succ k ih =>
    match evs, hlen, hall with
    | e1 :: e2 :: rest, hlen, hall =>
      have h1 := step_leftPress m s e1 (hall e1 (by simp))
      have h2 := step_leftPress m (step m s e1) e2 (hall e2 (by simp))
      have hback : step m (step m s e1) e2 = s := by
        rw [h2, h1]
        cases s
        simp
      have hrest : rest.length = 2 * k := by
        simp only [List.length_cons] at hlen
        omega
      have := ih rest s hrest (fun e he => hall e (by simp [he]))
      simpa [run, List.foldl, hback] using this
    | [], hlen, _ =>
      simp only [List.length_nil] at hlen
      omega
    | [_], hlen, _ =>
      simp only [List.length_cons, List.length_nil] at hlen
      omega

/-- C5 for two presses (with different modifier keys) while rendering is idle. -/
theorem C5_even_toggles_restore_state_witness :
    run sampleLibm
        [Event.MouseButton GLFW_MOUSE_BUTTON_LEFT GLFW_PRESS 0,
         Event.MouseButton GLFW_MOUSE_BUTTON_LEFT GLFW_PRESS 1]
        (programStart : State ℚ)
      = programStart :=
  C5_even_toggles_restore_state _ 1 _ _ rfl (by decide)

/-! ## What a frame submits and writes -/

/-- C6: one Render call, animating or not, appends exactly one command buffer to the
queue; it holds exactly one render pass, whose commands are SetPipeline,
SetBindGroup 0, SetVertexBuffer 0 and then its only draw, a non-indexed Draw of 3
vertices. -/
theorem C6_one_submit_one_pass_one_draw (m : Libm α) (s : State α) :
    ∃ (commands : CommandBuffer α) (pass : RenderPass α),
      (Render m s).submitted = s.submitted ++ [commands] ∧
      commands.passes = [pass] ∧
      pass.commands =
        [PassCommand.SetPipeline Handle.pipeline,
         PassCommand.SetBindGroup 0 Handle.bindGroup,
         PassCommand.SetVertexBuffer 0 Handle.vertexBuffer,
         PassCommand.Draw 3 1 0 0] ∧
      pass.commands.filter PassCommand.isDraw = [PassCommand.Draw 3 1 0 0] := by
  refine ⟨⟨[⟨[⟨LoadOp.Clear, StoreOp.Store, (0.0, 0.2, 0.4, 1.0)⟩],
      [PassCommand.SetPipeline Handle.pipeline,
       PassCommand.SetBindGroup 0 Handle.bindGroup,
       PassCommand.SetVertexBuffer 0 Handle.vertexBuffer,
       PassCommand.Draw 3 1 0 0]⟩]⟩,
    ⟨[⟨LoadOp.Clear, StoreOp.Store, (0.0, 0.2, 0.4, 1.0)⟩],
      [PassCommand.SetPipeline Handle.pipeline,
       PassCommand.SetBindGroup 0 Handle.bindGroup,
       PassCommand.SetVertexBuffer 0 Handle.vertexBuffer,
       PassCommand.Draw 3 1 0 0]⟩,
    ?_, rfl, rfl, rfl⟩
  unfold Render UpdateTransformationMatrix Submit
  by_cases h : s.isAnimating = true
  · simp only [h, if_true]
    split <;> rfl
  · simp [h]

/-- C7: for a state with isAnimating true (and the 16-float uniform buffer), after
one Render call the rotationAngle is the old angle plus 0.01, wrapped; the uniform
buffer holds the 16 entries of the Z-axis rotation matrix of that new angle; and
outside the upper-left 2x2 block (indices 0, 1, 4, 5) every entry is the identity
entry. -/
theorem C7_buffer_is_rotation_of_new_angle (m : Libm α) (s : State α)
    (h : s.isAnimating = true) (hlen : s.uniformBuffer.length = 16) :
    (Render m s).rotationAngle =
        (if s.rotationAngle + 0.01 > 2.0 * m.M_PI then s.rotationAngle + 0.01 - 2.0 * m.M_PI
         else s.rotationAngle + 0.01) ∧
      (Render m s).uniformBuffer =
        [m.cos (Render m s).rotationAngle, -m.sin (Render m s).rotationAngle, 0, 0,
         m.sin (Render m s).rotationAngle, m.cos (Render m s).rotationAngle, 0, 0,
         0, 0, 1, 0,
         0, 0, 0, 1] ∧
      ∀ i : ℕ, i < 16 → i ∉ [0, 1, 4, 5] →
        (Render m s).uniformBuffer[i]? = (transformationMatrix : List α)[i]? := by
  have hbuf := Render_uniformBuffer m s h (le_of_eq hlen)
  refine ⟨by rw [Render_rotationAngle]; simp [h], hbuf, ?_⟩
  intro i hi hblock
  rw [hbuf]
  interval_cases i <;> simp [transformationMatrix] at hblock ⊢

/-- C7 on the first frame of the program, over the reals. -/
theorem C7_buffer_is_rotation_of_new_angle_witness :
    (programStart : State ℝ).isAnimating = true ∧
      (programStart : State ℝ).uniformBuffer.length = 16 ∧
      (Render (Libm.mk Real.pi Real.cos Real.sin) programStart).uniformBuffer =
        [Real.cos (Render (Libm.mk Real.pi Real.cos Real.sin) programStart).rotationAngle,
         -Real.sin (Render (Libm.mk Real.pi Real.cos Real.sin) programStart).rotationAngle,
         0, 0,
         Real.sin (Render (Libm.mk Real.pi Real.cos Real.sin) programStart).rotationAngle,
         Real.cos (Render (Libm.mk Real.pi Real.cos Real.sin) programStart).rotationAngle,
         0, 0,
         0, 0, 1, 0,
         0, 0, 0, 1] :=
  ⟨rfl, by rw [programStart_uniformBuffer]; rfl,
    (C7_buffer_is_rotation_of_new_angle (Libm.mk Real.pi Real.cos Real.sin) programStart rfl
      (by rw [programStart_uniformBuffer]; rfl)).2.1⟩

/-! ## Device acquisition -/

theorem printMessage_trace (label : String) (message : Option String) (p : Process) :
    (printMessage label message p).trace = p.trace ∨
      ∃ text, (printMessage label message p).trace = p.trace ++ [Call.printf text] := by
  cases message with
  | none => exact Or.inl rfl
  | some text => exact Or.inr ⟨_, rfl⟩

theorem main_of_adapter_failure (rt : Runtime)
    (h : rt.adapterStatus ≠ WGPURequestAdapterStatus.Success) :
    main rt =
      exit 0 (printMessage "RequestAdapter: " rt.adapterMessage
        (call Call.RequestAdapter (call Call.CreateInstance
          { adapter := none, device := none, trace := [], exitCode := none }))) := by
  simp [main, GetAdapter, adapterCallback, h]

/-- C9: when the adapter request does not report Success, the adapter callback ends
the process with exit code 0 whatever the continuation is (it is never invoked), and
the whole program makes no device request, never calls Start and creates no GPU
resource; when the status is Success, the callback is one invocation of the
continuation on the acquired adapter. -/
theorem C9_adapter_failure_exits_zero (rt : Runtime)
    (userdata : Adapter → Process → Process) (p : Process) :
    (rt.adapterStatus ≠ WGPURequestAdapterStatus.Success →
        adapterCallback rt.adapterStatus rt.cAdapter rt.adapterMessage userdata p
          = exit 0 (printMessage "RequestAdapter: " rt.adapterMessage p) ∧
        (main rt).exitCode = some 0 ∧
        Call.RequestDevice ∉ (main rt).trace ∧
        Call.Start ∉ (main rt).trace ∧
        ∀ c ∈ (main rt).trace, c.createsGpuResource = false) ∧
      (rt.adapterStatus = WGPURequestAdapterStatus.Success →
        adapterCallback rt.adapterStatus rt.cAdapter rt.adapterMessage userdata p
          = userdata (Adapter.Acquire rt.cAdapter)
              (printMessage "RequestAdapter: " rt.adapterMessage p) ∧
        (main rt).adapter = some (Adapter.Acquire rt.cAdapter) ∧
        (main rt).trace.count Call.RequestDevice = 1) := by
  constructor
  · intro h
    refine ⟨by simp [adapterCallback, h], ?_⟩
    rw [main_of_adapter_failure rt h]
    cases rt.adapterMessage <;>
      simp [exit, printMessage, call, Call.createsGpuResource]
  · intro h
    refine ⟨by simp [adapterCallback, h], ?_⟩
    cases hm : rt.adapterMessage <;> cases hd : rt.deviceMessage <;> cases hg : rt.glfwInitOk <;>
      simp [main, GetAdapter, adapterCallback, GetDevice, deviceCallback, Start, InitGraphics,
        printMessage, call, h, hm, hd, hg]

/-- C9 on a runtime that reports no adapter, with a probe continuation that would
call Start: the process exits with code 0 and the probe has left no entry. -/
theorem C9_adapter_failure_exits_zero_witness :
    (adapterCallback WGPURequestAdapterStatus.Unavailable 0 (some "no adapter")
        (fun _ q => call Call.Start q)
        { adapter := none, device := none, trace := [], exitCode := none }
      = { adapter := none, device := none,
          trace := [Call.printf "RequestAdapter: no adapter\n"], exitCode := some 0 }) ∧
      (main { adapterStatus := WGPURequestAdapterStatus.Unavailable, cAdapter := 0,
              adapterMessage := some "no adapter",
              deviceStatus := WGPURequestDeviceStatus.Success, cDevice := 1,
              deviceMessage := none, glfwInitOk := true }).exitCode = some 0 :=
  ⟨((C9_adapter_failure_exits_zero
        { adapterStatus := WGPURequestAdapterStatus.Unavailable, cAdapter := 0,
          adapterMessage := some "no adapter",
          deviceStatus := WGPURequestDeviceStatus.Success, cDevice := 1,
          deviceMessage := none, glfwInitOk := true }
        (fun _ q => call Call.Start q)
        { adapter := none, device := none, trace := [], exitCode := none }).1
      (by decide)).1,
    ((C9_adapter_failure_exits_zero
        { adapterStatus := WGPURequestAdapterStatus.Unavailable, cAdapter := 0,
          adapterMessage := some "no adapter",
          deviceStatus := WGPURequestDeviceStatus.Success, cDevice := 1,
          deviceMessage := none, glfwInitOk := true }
        (fun _ q => call Call.Start q)
        { adapter := none, device := none, trace := [], exitCode := none }).1
      (by decide)).2.1⟩

/-- What gates Start in the code: the adapter status alone. -/
theorem main_calls_Start_iff (rt : Runtime) :
    Call.Start ∈ (main rt).trace ↔ rt.adapterStatus = WGPURequestAdapterStatus.Success := by
  by_cases h : rt.adapterStatus = WGPURequestAdapterStatus.Success
  · cases hm : rt.adapterMessage <;> cases hd : rt.deviceMessage <;>
      cases hg : rt.glfwInitOk <;>
      simp [main, GetAdapter, adapterCallback, GetDevice, deviceCallback, Start, InitGraphics,
        printMessage, call, h, hm, hd, hg]
  · rw [main_of_adapter_failure rt h]
    cases rt.adapterMessage <;> simp [exit, printMessage, call, h]

/-- C10 fails on the code: with the adapter request successful and the device request
reporting Error with a null device, the device callback still acquires the handle,
invokes the continuation, and Start runs through InitGraphics to the render loop. -/
theorem C10_device_failure_still_starts :
    Call.Start ∈
        (main { adapterStatus := WGPURequestAdapterStatus.Success, cAdapter := 1,
                adapterMessage := none,
                deviceStatus := WGPURequestDeviceStatus.Error, cDevice := 0,
                deviceMessage := some "no device", glfwInitOk := true }).trace ∧
      Call.CreateRenderPipeline ∈
        (main { adapterStatus := WGPURequestAdapterStatus.Success, cAdapter := 1,
                adapterMessage := none,
                deviceStatus := WGPURequestDeviceStatus.Error, cDevice := 0,
                deviceMessage := some "no device", glfwInitOk := true }).trace ∧
      (main { adapterStatus := WGPURequestAdapterStatus.Success, cAdapter := 1,
              adapterMessage := none,
              deviceStatus := WGPURequestDeviceStatus.Error, cDevice := 0,
              deviceMessage := some "no device", glfwInitOk := true }).device
        = some (Device.Acquire 0) ∧
      (main { adapterStatus := WGPURequestAdapterStatus.Success, cAdapter := 1,
              adapterMessage := none,
              deviceStatus := WGPURequestDeviceStatus.Error, cDevice := 0,
              deviceMessage := some "no device", glfwInitOk := true }).exitCode = none := by
  simp [main, GetAdapter, adapterCallback, GetDevice, deviceCallback, Start, InitGraphics,
    printMessage, call]

end WebGPUTriangle
